import Mathlib

/-!
# thread.h / common.h: a shallow embedding

Verification development for the base layer (`common.h`) and the Windows
threading layer (`thread.h`).

Conventions of the embedding:

* machine integers are `Nat` (or `Int` for the signed `s64`) reduced
  explicitly modulo `2 ^ w` where the C arithmetic wraps;
* pointers and `HANDLE`s are `Nat`, `0` being `null`;
* a C pointer argument that may be null (`Thread *thread`) is an `Option`;
* every stateful function threads the state it touches explicitly.
-/

set_option linter.unusedVariables false

namespace Base

/-! ## common.h: alignment helpers -/

/-- Number of values of a `u64`. -/
def U64 : Nat := 2 ^ 64

/-- Subtraction of `u64` values (wraps around). -/
def sub64 (a b : Nat) : Nat := (a + U64 - b % U64) % U64

/-- Addition of `u64` values (wraps around). -/
def add64 (a b : Nat) : Nat := (a + b) % U64

/-- Source `is_power_of_two`: `return (x & (x-1)) == 0;` on `u64`. -/
def is_power_of_two (x : Nat) : Bool :=
  (x &&& sub64 x 1) == 0

/-- Source `align_size`:
`u64 result = size + alignment - 1; return result - (result % alignment);`
(the `%` is C's: undefined for `alignment = 0`; `Nat` gives `x % 0 = x`). -/
def align_size (size alignment : Nat) : Nat :=
  let result := sub64 (add64 size alignment) 1
  sub64 result (result % alignment)

/-- Source `align_forward` (the pointer is already the integer `p`):
`modulo = p & (alignment - 1); if (modulo != 0) p += alignment - modulo;`. -/
def align_forward (ptr alignment : Nat) : Nat :=
  let p := ptr
  let modulo := p &&& sub64 alignment 1
  if modulo != 0 then add64 p (sub64 alignment modulo) else p

/-! ## common.h: the default allocator

`malloc`, `free`, `memcpy` and `abort` belong to the C library, not to the
repository.  They are modelled on a flat byte memory:

* `malloc` is a bump allocator over the address range `(brk, limit]`; it
  fails (returns `null`) when the request does not fit;
* `free` records the call and retires the block that starts at the pointer;
* `memcpy` copies bytes whatever blocks they lie in, as the machine does.
-/

/-- The C heap. -/
structure Heap where
  /-- The byte stored at each address. -/
  mem : Nat → Nat
  /-- Live blocks, as (base address, size). -/
  blocks : List (Nat × Nat)
  /-- Highest address handed out so far. -/
  brk : Nat
  /-- Highest address of the heap. -/
  limit : Nat
  /-- Arguments of the `free` calls made on non-null pointers, latest first. -/
  frees : List Nat

/-- Conversion of an `s64` to `size_t`, as at the call `malloc(size)`. -/
def to_size_t (n : Int) : Nat := (n % (U64 : Int)).toNat

/-- C library `malloc`: `null` (`0`) when out of memory, else a fresh block. -/
def malloc (h : Heap) (n : Nat) : Nat × Heap :=
  if h.brk + 1 + n ≤ h.limit then
    (h.brk + 1, { h with blocks := (h.brk + 1, n) :: h.blocks, brk := h.brk + 1 + n })
  else (0, h)

/-- C library `free`: no-op on `null`. -/
def free (h : Heap) (p : Nat) : Heap :=
  if p = 0 then h
  else { h with blocks := h.blocks.filter (fun b => b.1 != p), frees := p :: h.frees }

/-- C library `memcpy(dst, src, n)`. -/
def memcpy (h : Heap) (dst src n : Nat) : Heap :=
  { h with mem := fun a => if dst ≤ a ∧ a < dst + n then h.mem (src + (a - dst)) else h.mem a }

/-- Values of `enum AllocatorMode`. -/
def ALLOCATOR_ALLOCATE : Int := 0
/-- Second enumerator. -/
def ALLOCATOR_RESIZE : Int := 1
/-- Third enumerator. -/
def ALLOCATOR_FREE : Int := 2
/-- Fourth enumerator. -/
def ALLOCATOR_FREE_ALL : Int := 3

/-- How a call of an allocator procedure ends. -/
inductive Outcome where
  /-- Normal return of a pointer, with the heap it leaves. -/
  | returned (p : Nat) (h : Heap)
  /-- The call reached `panic()`, which is `abort()`. -/
  | panicked

/-- Source `default_allocator` (`ALLOCATOR_PROC`), in the build the header
ships: `assert` expands to nothing unless the includer defines
`ENABLE_ASSERTS`, so `assert(false); panic();` is `panic()`.  The enum may
carry any integer, which is what the `default:` label is for. -/
def default_allocator (mode : Int) (size old_size : Int) (old_memory : Nat)
    (allocator_data : Nat) (options : Int) (h : Heap) : Outcome :=
  if mode = ALLOCATOR_ALLOCATE then
    let r := malloc h (to_size_t size)
    .returned r.1 r.2
  else if mode = ALLOCATOR_RESIZE then
    let r := malloc h (to_size_t size)
    let result := r.1
    if result = 0 then .returned 0 r.2
    else if old_memory ≠ 0 ∧ old_size > 0 then
      let h1 := memcpy r.2 result old_memory (to_size_t old_size)
      let h2 := free h1 old_memory
      .returned result h2
    else .returned result r.2
  else if mode = ALLOCATOR_FREE then
    .returned 0 (free h old_memory)
  else if mode = ALLOCATOR_FREE_ALL then
    .panicked
  else
    .panicked

end Base

/-! ## The Win32 kernel objects used by thread.h

`CreateThread`, `CloseHandle`, `WaitForSingleObject` and the other calls are
the operating system's.  They are modelled, after their documentation, on a
table of open handles as seen by the one thread that makes the calls; the
other threads only run until they exit.  Every call is recorded in a trace,
so that "no call was made" and "the handle was closed once" can be stated.
A wait that never returns is `none`.
-/

namespace Win32

/-- Return value of a wait: the object was signaled. -/
def WAIT_OBJECT_0 : Nat := 0x00000000
/-- Return value of a wait: the mutex was abandoned by its owner. -/
def WAIT_ABANDONED : Nat := 0x00000080
/-- Return value of a wait: the interval elapsed. -/
def WAIT_TIMEOUT : Nat := 0x00000102
/-- Return value of a wait: the call failed. -/
def WAIT_FAILED : Nat := 0xFFFFFFFF
/-- The timeout that never elapses. -/
def INFINITE : Nat := 0xFFFFFFFF

/-- Number of values of a `DWORD`. -/
def DWORD : Nat := 2 ^ 32

/-- Conversion of a `u32` to `LONG` (two's complement). -/
def to_LONG (x : Nat) : Int :=
  if x % DWORD < 2 ^ 31 then (x % DWORD : Nat) else (x % DWORD : Nat) - (DWORD : Int)

/-- A kernel object behind a handle. -/
inductive KObject where
  /-- A thread: its id, and the milliseconds until it exits
  (`some 0`: it has exited, `none`: it never does). -/
  | thread (tid : Nat) (exits_in : Option Nat)
  /-- A mutex: the id of the owning thread, the recursion depth, and
  whether the owner exited without releasing it. -/
  | mutex (owner : Option Nat) (depth : Nat) (abandoned : Bool)
  /-- A semaphore: current and maximum count. -/
  | semaphore (count max : Nat)
  deriving DecidableEq

/-- One call into the operating system. -/
inductive Call where
  | CreateThread (params : Nat)
  | CloseHandle (h : Nat)
  | GetExitCodeThread (h : Nat)
  | WaitForSingleObject (h ms : Nat)
  | TerminateThread (h code : Nat)
  | CreateMutex
  | ReleaseMutex (h : Nat)
  | CreateSemaphore (initial maximum : Int)
  | ReleaseSemaphore (h : Nat) (n : Int)
  deriving DecidableEq

/-- The state of the operating system, as far as thread.h can observe it. -/
structure OS where
  /-- Open handles of the process. -/
  table : List (Nat × KObject)
  /-- Last handle value handed out. -/
  last_handle : Nat
  /-- Last thread id handed out. -/
  last_tid : Nat
  /-- How many more handles the process may open. -/
  quota : Nat
  /-- Id of the calling thread. -/
  self : Nat
  /-- The calls made so far, latest first. -/
  trace : List Call
  deriving DecidableEq

/-- The object a handle refers to, if the handle is open; `NULL` never is. -/
def OS.lookup (os : OS) (h : Nat) : Option KObject :=
  if h = 0 then none else os.table.lookup h

/-- Replace the object behind an open handle. -/
def OS.set (os : OS) (h : Nat) (o : KObject) : OS :=
  { os with table := os.table.map (fun e => if e.1 = h then (e.1, o) else e) }

/-- Record a call. -/
def OS.log (os : OS) (c : Call) : OS := { os with trace := c :: os.trace }

/-- Let `d` milliseconds pass: running threads get closer to their exit. -/
def OS.advance (os : OS) (d : Nat) : OS :=
  { os with table := os.table.map (fun e =>
      match e.2 with
      | .thread tid (some r) => (e.1, .thread tid (some (r - d)))
      | _ => e) }

/-- Open a fresh handle on a new object; `0` when the quota is used up. -/
def OS.open_new (os : OS) (o : KObject) : Nat × OS :=
  if os.quota = 0 then (0, os)
  else (os.last_handle + 1,
    { os with table := (os.last_handle + 1, o) :: os.table,
              last_handle := os.last_handle + 1, quota := os.quota - 1 })

/-- Win32 `CreateThread(0, 0, proc, params, 0, &id)`: the handle and the id
written through the `DWORD *` (nothing is written on failure).  `runtime` is
how long `proc(params)` runs. -/
def CreateThread (os : OS) (runtime : Option Nat) (params : Nat) : Nat × Option Nat × OS :=
  let os1 := os.log (.CreateThread params)
  let r := os1.open_new (.thread (os1.last_tid + 1) runtime)
  if r.1 = 0 then (0, none, r.2)
  else (r.1, some ((os1.last_tid + 1) % DWORD), { r.2 with last_tid := os1.last_tid + 1 })

/-- Win32 `CloseHandle`: fails on a handle that is not open. -/
def CloseHandle (os : OS) (h : Nat) : Bool × OS :=
  let os1 := os.log (.CloseHandle h)
  match os1.lookup h with
  | none => (false, os1)
  | some _ => (true, { os1 with table := os1.table.filter (fun e => e.1 != h),
                                quota := os1.quota + 1 })

/-- Win32 `GetExitCodeThread`: a query; succeeds on an open thread handle. -/
def GetExitCodeThread (os : OS) (h : Nat) : Bool × OS :=
  let os1 := os.log (.GetExitCodeThread h)
  match os1.lookup h with
  | some (.thread _ _) => (true, os1)
  | _ => (false, os1)

/-- Win32 `WaitForSingleObject(h, ms)`, `ms` a `DWORD`. -/
def WaitForSingleObject (os : OS) (h ms : Nat) : Option (Nat × OS) :=
  let os1 := os.log (.WaitForSingleObject h ms)
  match os1.lookup h with
  | none => some (WAIT_FAILED, os1)
  | some (.thread _ (some d)) =>
      if ms = INFINITE ∨ d ≤ ms then some (WAIT_OBJECT_0, os1.advance d)
      else some (WAIT_TIMEOUT, os1.advance ms)
  | some (.thread _ none) =>
      if ms = INFINITE then none else some (WAIT_TIMEOUT, os1.advance ms)
  | some (.semaphore c m) =>
      if 0 < c then some (WAIT_OBJECT_0, os1.set h (.semaphore (c - 1) m))
      else if ms = INFINITE then none else some (WAIT_TIMEOUT, os1.advance ms)
  | some (.mutex owner depth abandoned) =>
      if abandoned then some (WAIT_ABANDONED, os1.set h (.mutex (some os1.self) 1 false))
      else match owner with
        | none => some (WAIT_OBJECT_0, os1.set h (.mutex (some os1.self) 1 false))
        | some o =>
            if o = os1.self then some (WAIT_OBJECT_0, os1.set h (.mutex owner (depth + 1) false))
            else if ms = INFINITE then none else some (WAIT_TIMEOUT, os1.advance ms)

/-- Win32 `TerminateThread`: the thread exits at once; the mutexes it owns
become abandoned. -/
def TerminateThread (os : OS) (h code : Nat) : Bool × OS :=
  let os1 := os.log (.TerminateThread h code)
  match os1.lookup h with
  | some (.thread tid _) =>
      (true, { os1 with table := os1.table.map (fun e =>
        if e.1 = h then (e.1, .thread tid (some 0))
        else match e.2 with
          | .mutex (some o) d a => if o = tid then (e.1, .mutex none 0 true) else (e.1, .mutex (some o) d a)
          | _ => e) })
  | _ => (false, os1)

/-- Win32 `CreateMutex(0, FALSE, 0)`. -/
def CreateMutex (os : OS) : Nat × OS :=
  (os.log .CreateMutex).open_new (.mutex none 0 false)

/-- Win32 `ReleaseMutex`: fails unless the calling thread owns the mutex. -/
def ReleaseMutex (os : OS) (h : Nat) : Bool × OS :=
  let os1 := os.log (.ReleaseMutex h)
  match os1.lookup h with
  | some (.mutex (some o) depth _) =>
      if o = os1.self then
        (true, os1.set h (if depth ≤ 1 then .mutex none 0 false else .mutex (some o) (depth - 1) false))
      else (false, os1)
  | _ => (false, os1)

/-- Win32 `CreateSemaphore(0, initial, maximum, 0)`, both counts `LONG`:
`maximum` must be greater than zero and `0 ≤ initial ≤ maximum`. -/
def CreateSemaphore (os : OS) (initial maximum : Int) : Nat × OS :=
  let os1 := os.log (.CreateSemaphore initial maximum)
  if maximum ≤ 0 ∨ initial < 0 ∨ maximum < initial then (0, os1)
  else os1.open_new (.semaphore initial.toNat maximum.toNat)

/-- Win32 `ReleaseSemaphore(h, n, &previous)`: fails, changing nothing, when
`n ≤ 0` or the count would exceed the maximum. -/
def ReleaseSemaphore (os : OS) (h : Nat) (n : Int) : Bool × Int × OS :=
  let os1 := os.log (.ReleaseSemaphore h n)
  match os1.lookup h with
  | some (.semaphore c m) =>
      if 0 < n ∧ (c : Int) + n ≤ m then (true, c, os1.set h (.semaphore (c + n.toNat) m))
      else (false, 0, os1)
  | _ => (false, 0, os1)

end Win32

/-! ## thread.h, the Windows layer

`assert` expands to nothing in the build the header ships; a function that
dereferences its pointer without a null test takes the pointee itself.
-/

namespace ThreadLib

open Win32

/-- Source `struct Thread`. -/
structure Thread where
  thread_id : Nat
  internal_data : Nat
  deriving DecidableEq

/-- Source `struct Mutex`. -/
structure Mutex where
  internal_data : Nat
  deriving DecidableEq

/-- Source `struct Semaphore`. -/
structure Semaphore where
  internal_data : Nat
  deriving DecidableEq

/-- Source `ThreadProc`, a possibly null function pointer: what is kept of the
procedure is how long it runs on its argument (`none`: forever). -/
abbrev ThreadProc := Option (Nat → Option Nat)

/-- Store of a `DWORD` through `(DWORD *)&out_thread->thread_id`: the low
half of the little-endian `u64` is overwritten. -/
def store_low_dword (old : Nat) (v : Nat) : Nat := old / DWORD * DWORD + v % DWORD

/-- Source `thread_create`. -/
def thread_create (out_thread : Thread) (thread_proc : ThreadProc) (params : Nat)
    (should_detach : Bool) (os : OS) : Bool × Thread × OS :=
  match thread_proc with
  | none => (false, out_thread, os)
  | some proc =>
    let r := CreateThread os (proc params) params
    let t1 : Thread :=
      { thread_id := match r.2.1 with
          | some id => store_low_dword out_thread.thread_id id
          | none => out_thread.thread_id,
        internal_data := r.1 }
    if t1.internal_data = 0 then (false, t1, r.2.2)
    else if should_detach then (true, t1, (CloseHandle r.2.2 t1.internal_data).2)
    else (true, t1, r.2.2)

/-- Source `thread_destroy`. -/
def thread_destroy (thread : Option Thread) (os : OS) : Option Thread × OS :=
  match thread with
  | none => (none, os)
  | some t =>
    if t.internal_data ≠ 0 then
      let os1 := (GetExitCodeThread os t.internal_data).2
      let os2 := (CloseHandle os1 t.internal_data).2
      (some { thread_id := 0, internal_data := 0 }, os2)
    else (some t, os)

/-- Source `thread_is_active`. -/
def thread_is_active (thread : Option Thread) (os : OS) : Option (Bool × OS) :=
  match thread with
  | none => some (false, os)
  | some t =>
    if t.internal_data ≠ 0 then
      match WaitForSingleObject os t.internal_data 0 with
      | none => none
      | some (exit_code, os1) => some (exit_code == WAIT_TIMEOUT, os1)
    else some (false, os)

/-- Source `thread_wait`. -/
def thread_wait (thread : Option Thread) (os : OS) : Option (Bool × OS) :=
  match thread with
  | none => some (false, os)
  | some t =>
    if t.internal_data ≠ 0 then
      match WaitForSingleObject os t.internal_data INFINITE with
      | none => none
      | some (exit_code, os1) => some (exit_code == WAIT_OBJECT_0, os1)
    else some (false, os)

/-- Source `thread_wait_timeout`: the `u64 wait_ms` is converted to the
`DWORD` parameter of `WaitForSingleObject`. -/
def thread_wait_timeout (thread : Option Thread) (wait_ms : Nat) (os : OS) : Option (Bool × OS) :=
  match thread with
  | none => some (false, os)
  | some t =>
    if t.internal_data ≠ 0 then
      match WaitForSingleObject os t.internal_data (wait_ms % DWORD) with
      | none => none
      | some (exit_code, os1) =>
        if exit_code = WAIT_OBJECT_0 then some (true, os1)
        else if exit_code = WAIT_TIMEOUT then some (false, os1)
        else some (false, os1)
    else some (false, os)

/-- Source `thread_detach`. -/
def thread_detach (thread : Option Thread) (os : OS) : Option Thread × OS :=
  match thread with
  | none => (none, os)
  | some t =>
    if t.internal_data ≠ 0 then
      (some { t with internal_data := 0 }, (CloseHandle os t.internal_data).2)
    else (some t, os)

/-- Source `thread_cancel`. -/
def thread_cancel (thread : Option Thread) (os : OS) : Option Thread × OS :=
  match thread with
  | none => (none, os)
  | some t =>
    if t.internal_data ≠ 0 then
      (some { t with internal_data := 0 }, (TerminateThread os t.internal_data 0).2)
    else (some t, os)

/-- Source `mutex_create`. -/
def mutex_create (_out_mutex : Mutex) (os : OS) : Bool × Mutex × OS :=
  let r := CreateMutex os
  let m : Mutex := { internal_data := r.1 }
  if m.internal_data = 0 then (false, m, r.2) else (true, m, r.2)

/-- Source `mutex_destroy`. -/
def mutex_destroy (mutex : Option Mutex) (os : OS) : Option Mutex × OS :=
  match mutex with
  | none => (none, os)
  | some m =>
    if m.internal_data ≠ 0 then
      (some { internal_data := 0 }, (CloseHandle os m.internal_data).2)
    else (some m, os)

/-- Source `mutex_lock`: no test of `internal_data`; the `switch` names
`WAIT_OBJECT_0` and `WAIT_ABANDONED`, every other result falls through to
`return true`. -/
def mutex_lock (mutex : Mutex) (os : OS) : Option (Bool × OS) :=
  match WaitForSingleObject os mutex.internal_data INFINITE with
  | none => none
  | some (result, os1) =>
    if result = WAIT_OBJECT_0 then some (true, os1)
    else if result = WAIT_ABANDONED then some (false, os1)
    else some (true, os1)

/-- Source `mutex_unlock`. -/
def mutex_unlock (mutex : Option Mutex) (os : OS) : Bool × OS :=
  match mutex with
  | none => (false, os)
  | some m =>
    if m.internal_data ≠ 0 then
      let r := ReleaseMutex os m.internal_data
      (r.1, r.2)
    else (false, os)

/-- Source `semaphore_create`: the `u32` counts are converted to the `LONG`
parameters of `CreateSemaphore`. -/
def semaphore_create (_out_semaphore : Semaphore) (max_count start_count : Nat) (os : OS) :
    Bool × Semaphore × OS :=
  let r := CreateSemaphore os (to_LONG start_count) (to_LONG max_count)
  let s : Semaphore := { internal_data := r.1 }
  if s.internal_data = 0 then (false, s, r.2) else (true, s, r.2)

/-- Source `semaphore_destroy`. -/
def semaphore_destroy (semaphore : Option Semaphore) (os : OS) : Option Semaphore × OS :=
  match semaphore with
  | none => (none, os)
  | some s =>
    if s.internal_data ≠ 0 then
      (some { internal_data := 0 }, (CloseHandle os s.internal_data).2)
    else (some s, os)

/-- Source `semaphore_signal`. -/
def semaphore_signal (semaphore : Option Semaphore) (os : OS) : Bool × OS :=
  match semaphore with
  | none => (false, os)
  | some s =>
    if s.internal_data = 0 then (false, os)
    else
      let r := ReleaseSemaphore os s.internal_data 1
      if !r.1 then (false, r.2.2) else (true, r.2.2)

/-- Source `semaphore_wait`: the `u64 wait_ms` is converted to the `DWORD`
parameter of `WaitForSingleObject`. -/
def semaphore_wait (semaphore : Option Semaphore) (wait_ms : Nat) (os : OS) : Option (Bool × OS) :=
  match semaphore with
  | none => some (false, os)
  | some s =>
    if s.internal_data = 0 then some (false, os)
    else
      match WaitForSingleObject os s.internal_data (wait_ms % DWORD) with
      | none => none
      | some (result, os1) =>
        if result = WAIT_ABANDONED then some (false, os1)
        else if result = WAIT_OBJECT_0 then some (true, os1)
        else if result = WAIT_TIMEOUT then some (false, os1)
        else if result = WAIT_FAILED then some (false, os1)
        else some (false, os1)

/-! ### Sequences of calls, as the tests of the semaphore make them -/

/-- The results of `n` consecutive calls `semaphore_signal(semaphore)`, in
order, and the state they leave. -/
def semaphore_signal_times (semaphore : Option Semaphore) : Nat → OS → List Bool × OS
  | 0, os => ([], os)
  | n + 1, os =>
    let r := semaphore_signal semaphore os
    let rest := semaphore_signal_times semaphore n r.2
    (r.1 :: rest.1, rest.2)

/-- The results of `n` consecutive calls `semaphore_wait(semaphore, wait_ms)`,
in order, and the state they leave; `none` when one of them never returns. -/
def semaphore_wait_times (semaphore : Option Semaphore) (wait_ms : Nat) :
    Nat → OS → Option (List Bool × OS)
  | 0, os => some ([], os)
  | n + 1, os =>
    match semaphore_wait semaphore wait_ms os with
    | none => none
    | some (b, os1) =>
      match semaphore_wait_times semaphore wait_ms n os1 with
      | none => none
      | some (bs, os2) => some (b :: bs, os2)

/-- A call on a semaphore. -/
inductive SemCall where
  | signal
  | wait (wait_ms : Nat)
  deriving DecidableEq

/-- The state a sequence of calls on one semaphore leaves; the sequence ends
early at a wait that never returns. -/
def semaphore_calls (semaphore : Option Semaphore) : List SemCall → OS → OS
  | [], os => os
  | .signal :: cs, os => semaphore_calls semaphore cs (semaphore_signal semaphore os).2
  | .wait wait_ms :: cs, os =>
    match semaphore_wait semaphore wait_ms os with
    | none => os
    | some (_, os1) => semaphore_calls semaphore cs os1

/-- The number of `CloseHandle(h)` calls in a trace. -/
def closes_of (h : Nat) (trace : List Call) : Nat := trace.count (.CloseHandle h)

/-! ### Concrete states used to evaluate the code -/

/-- A process that has opened nothing yet and may open eight handles. -/
def os_start : OS :=
  { table := [], last_handle := 0, last_tid := 0, quota := 8, self := 1, trace := [] }

/-- The same process once it may open no further handle. -/
def os_exhausted : OS := { os_start with quota := 0 }

/-- A thread procedure that runs for five milliseconds. -/
def proc_5ms : ThreadProc := some (fun _ => some 5)

end ThreadLib

namespace Base

/-- A heap of 64 bytes whose one live block, at addresses 1 to 8, holds the
bytes 1 to 8; every other byte is 0. -/
def heap_start : Heap :=
  { mem := fun a => if 1 ≤ a ∧ a ≤ 8 then a else 0,
    blocks := [(1, 8)], brk := 8, limit := 64, frees := [] }

/-- The pointer a call returned, if it returned. -/
def Outcome.ptr : Outcome → Option Nat
  | .returned p _ => some p
  | .panicked => none

/-- The heap a call left, if it returned. -/
def Outcome.heap : Outcome → Option Heap
  | .returned _ h => some h
  | .panicked => none

end Base

/-! # Theorems -/

namespace Base

/-! ## Alignment helpers -/

theorem sub64_of_le {a b : Nat} (hb : b ≤ a) (ha : a < 2 ^ 64) : sub64 a b = a - b := by
  unfold sub64 U64
  omega

theorem size_plus_alignment_minus_one {p a : Nat} (ha : 0 < a) (h : p + a - 1 < 2 ^ 64) :
    sub64 (add64 p a) 1 = p + a - 1 := by
  unfold sub64 add64 U64
  omega

theorem align_size_eq {p a : Nat} (ha : 0 < a) (h : p + a - 1 < 2 ^ 64) :
    align_size p a = (p + a - 1) / a * a := by
  unfold align_size
  simp only [size_plus_alignment_minus_one ha h]
  rw [sub64_of_le (Nat.mod_le _ _) h]
  have := Nat.div_add_mod (p + a - 1) a
  have h2 : (p + a - 1) / a * a = a * ((p + a - 1) / a) := Nat.mul_comm _ _
  omega

theorem align_size_least {p a : Nat} (ha : 0 < a) (h : p + a - 1 < 2 ^ 64) :
    a ∣ align_size p a ∧ p ≤ align_size p a ∧ ∀ m, a ∣ m → p ≤ m → align_size p a ≤ m := by
  rw [align_size_eq ha h]
  refine ⟨Nat.dvd_mul_left _ _, ?_, ?_⟩
  · have := Nat.div_add_mod (p + a - 1) a
    have h3 := Nat.mod_lt (p + a - 1) ha
    have h2 : (p + a - 1) / a * a = a * ((p + a - 1) / a) := Nat.mul_comm _ _
    omega
  · rintro m ⟨k, rfl⟩ hpm
    rw [Nat.mul_comm a k]
    apply Nat.mul_le_mul_right
    apply Nat.le_of_lt_succ
    rw [Nat.div_lt_iff_lt_mul ha, Nat.succ_mul, Nat.mul_comm k a]
    omega

theorem align_up_cases (p a : Nat) (ha : 0 < a) :
    (p + a - 1) / a * a = if p % a = 0 then p else p + a - p % a := by
  obtain ⟨q, s, hs, rfl⟩ : ∃ q s, s < a ∧ p = a * q + s :=
    ⟨p / a, p % a, Nat.mod_lt p ha, (Nat.div_add_mod p a).symm⟩
  have hmod : (a * q + s) % a = s := by
    rw [Nat.mul_add_mod, Nat.mod_eq_of_lt hs]
  rw [hmod]
  rcases Nat.eq_zero_or_pos s with h0 | h0
  · subst h0
    have e : a * q + 0 + a - 1 = a * q + (a - 1) := by omega
    rw [e, Nat.mul_add_div ha, Nat.div_eq_of_lt (by omega), if_pos rfl, Nat.add_zero,
      Nat.add_zero, Nat.mul_comm]
  · have e : a * q + s + a - 1 = a * (q + 1) + (s - 1) := by
      rw [Nat.mul_add, Nat.mul_one]; omega
    rw [e, Nat.mul_add_div ha, Nat.div_eq_of_lt (by omega), if_neg (by omega), Nat.add_zero,
      Nat.mul_comm, Nat.mul_add, Nat.mul_one]
    omega

theorem align_forward_eq {p a : Nat} (ha : 0 < a) (ha64 : a < 2 ^ 64) (h : p + a - 1 < 2 ^ 64)
    (hpow : ∃ k, a = 2 ^ k) :
    align_forward p a = if p % a = 0 then p else p + a - p % a := by
  obtain ⟨k, rfl⟩ := hpow
  unfold align_forward
  have hm := Nat.mod_lt p ha
  simp only [sub64_of_le (show 1 ≤ 2 ^ k from ha) ha64, Nat.and_pow_two_sub_one_eq_mod]
  by_cases h0 : p % 2 ^ k = 0
  · simp [h0]
  · simp only [bne_iff_ne, ne_eq, h0, not_false_eq_true, if_true, if_false]
    rw [sub64_of_le (Nat.le_of_lt hm) ha64]
    unfold add64 U64
    rw [Nat.mod_eq_of_lt (by omega)]
    omega

theorem is_power_of_two_pow {k : Nat} (hk : 2 ^ k < 2 ^ 64) : is_power_of_two (2 ^ k) = true := by
  unfold is_power_of_two
  rw [sub64_of_le (Nat.pos_pow_of_pos k (by decide)) hk, Nat.and_pow_two_sub_one_eq_mod]
  simp

/-- C10: for `u64` values `p` and `a > 0` with `p + a - 1 < 2 ^ 64`,
`align_size p a` is a multiple of `a`, is at least `p`, and is below every
other such multiple; when `a` is moreover a power of two, the assertion of
`align_forward` holds, `align_forward p a` is that same value, and it is `p`
itself exactly when `a` divides `p`. -/
theorem align_helpers_round_up (p a : Nat) (hp : p < 2 ^ 64) (ha64 : a < 2 ^ 64) (ha : 0 < a)
    (h : p + a - 1 < 2 ^ 64) :
    (a ∣ align_size p a ∧ p ≤ align_size p a ∧ ∀ m, a ∣ m → p ≤ m → align_size p a ≤ m) ∧
    ((∃ k, a = 2 ^ k) →
      is_power_of_two a = true ∧ align_forward p a = align_size p a ∧
      (align_forward p a = p ↔ a ∣ p)) := by
  refine ⟨align_size_least ha h, ?_⟩
  intro hpow
  have hf := align_forward_eq ha ha64 h hpow
  refine ⟨?_, ?_, ?_⟩
  · obtain ⟨k, rfl⟩ := hpow
    exact is_power_of_two_pow ha64
  · rw [hf, align_size_eq ha h, align_up_cases p a ha]
  · rw [hf, Nat.dvd_iff_mod_eq_zero]
    have hm := Nat.mod_lt p ha
    constructor
    · intro h1
      by_contra h0
      rw [if_neg h0] at h1
      omega
    · intro h0
      rw [if_pos h0]

/-- The alignment theorem at `p = 13`, `a = 8 = 2 ^ 3`: both helpers give 16. -/
theorem align_helpers_round_up_witness :
    (13 < 2 ^ 64 ∧ 8 < 2 ^ 64 ∧ 0 < 8 ∧ 13 + 8 - 1 < 2 ^ 64) ∧
    (8 ∣ align_size 13 8 ∧ 13 ≤ align_size 13 8 ∧
      ∀ m, 8 ∣ m → 13 ≤ m → align_size 13 8 ≤ m) ∧
    is_power_of_two 8 = true ∧ align_forward 13 8 = align_size 13 8 ∧
      (align_forward 13 8 = 13 ↔ 8 ∣ 13) :=
  ⟨by decide,
    (align_helpers_round_up 13 8 (by decide) (by decide) (by decide) (by decide)).1,
    (align_helpers_round_up 13 8 (by decide) (by decide) (by decide) (by decide)).2 ⟨3, by decide⟩⟩


/-! ## The default allocator -/

theorem free_frees (h : Heap) {p : Nat} (hp : p ≠ 0) : (free h p).frees = p :: h.frees := by
  simp [free, hp]

theorem free_blocks (h : Heap) (p : Nat) (hp : p ≠ 0) : ∀ b ∈ (free h p).blocks, b.1 ≠ p := by
  intro b hb
  simp only [free, if_neg hp, List.mem_filter] at hb
  simpa using hb.2

theorem free_mem (h : Heap) (p : Nat) : (free h p).mem = h.mem := by
  unfold free
  split <;> rfl

theorem malloc_fail (h : Heap) (n : Nat) (hr : (malloc h n).1 = 0) : (malloc h n).2 = h := by
  unfold malloc at *
  split
  · next hfit => rw [if_pos hfit] at hr; simp at hr
  · rfl

theorem malloc_frees (h : Heap) (n : Nat) : (malloc h n).2.frees = h.frees := by
  unfold malloc
  split <;> rfl

theorem malloc_mem (h : Heap) (n : Nat) : (malloc h n).2.mem = h.mem := by
  unfold malloc
  split <;> rfl

/-- What a successful resize of a non-empty old block writes: exactly the
`old_size` bytes from the returned pointer on, whatever `size` was asked. -/
theorem resize_writes_old_size_bytes (size old_size : Int) (old_memory allocator_data : Nat)
    (options : Int) (h : Heap) (hold : old_memory ≠ 0) (hsz : 0 < old_size)
    (hr : (malloc h (to_size_t size)).1 ≠ 0) :
    ∃ h1, default_allocator ALLOCATOR_RESIZE size old_size old_memory allocator_data options h =
        .returned (malloc h (to_size_t size)).1 h1 ∧
      ∀ a, h1.mem a =
        if (malloc h (to_size_t size)).1 ≤ a ∧
            a < (malloc h (to_size_t size)).1 + to_size_t old_size
        then h.mem (old_memory + (a - (malloc h (to_size_t size)).1)) else h.mem a := by
  refine ⟨free (memcpy (malloc h (to_size_t size)).2 (malloc h (to_size_t size)).1 old_memory
    (to_size_t old_size)) old_memory, ?_, ?_⟩
  · simp [default_allocator, ALLOCATOR_ALLOCATE, ALLOCATOR_RESIZE, hr, hold, hsz]
  · intro a
    rw [free_mem]
    simp only [memcpy, malloc_mem]

/-- C4: shrinking the 8-byte block of `heap_start` to 4 bytes returns the
4-byte block at address 9 and stores 5, the fifth byte of the old block, at
address 13, the first address past the new block, which held 0. -/
theorem resize_shrink_writes_past_new_block :
    (default_allocator ALLOCATOR_RESIZE 4 8 1 0 0 heap_start).ptr = some 9 ∧
    ((default_allocator ALLOCATOR_RESIZE 4 8 1 0 0 heap_start).heap.map
      (fun h => h.blocks)) = some [(9, 4)] ∧
    heap_start.mem 13 = 0 ∧
    ((default_allocator ALLOCATOR_RESIZE 4 8 1 0 0 heap_start).heap.map
      (fun h => h.mem 13)) = some 5 := by
  decide

/-- C8: a zero-size block obtained from `ALLOCATOR_ALLOCATE` on `heap_start`
(at address 9) is resized, with its true `old_size = 0`, to 4 bytes; the
resize succeeds (the new block is at address 10), makes no `free` call and
leaves the old block live, whereas `ALLOCATOR_FREE` on the same block calls
`free` on it and retires it. -/
theorem resize_zero_old_size_keeps_old_block :
    (default_allocator ALLOCATOR_ALLOCATE 0 0 0 0 0 heap_start).ptr = some 9 ∧
    ((default_allocator ALLOCATOR_ALLOCATE 0 0 0 0 0 heap_start).heap.map
      (fun h1 => (h1.frees, h1.blocks))) = some ([], [(9, 0), (1, 8)]) ∧
    ((default_allocator ALLOCATOR_ALLOCATE 0 0 0 0 0 heap_start).heap.map
      (fun h1 => (default_allocator ALLOCATOR_RESIZE 4 0 9 0 0 h1).ptr)) = some (some 10) ∧
    ((default_allocator ALLOCATOR_ALLOCATE 0 0 0 0 0 heap_start).heap.bind
      (fun h1 => (default_allocator ALLOCATOR_RESIZE 4 0 9 0 0 h1).heap.map
        (fun h2 => (h2.frees, h2.blocks)))) = some ([], [(10, 4), (9, 0), (1, 8)]) ∧
    ((default_allocator ALLOCATOR_ALLOCATE 0 0 0 0 0 heap_start).heap.bind
      (fun h1 => (default_allocator ALLOCATOR_FREE 0 0 9 0 0 h1).heap.map
        (fun h2 => (h2.frees, h2.blocks)))) = some ([9], [(1, 8)]) := by
  decide

/-- Where the resize does release the old block: for a non-null
`old_memory` and `old_size > 0`, a resize whose allocation succeeds returns
the new block after exactly one more `free` call, on `old_memory`, and no
live block starts at `old_memory` afterwards; a resize whose allocation
fails returns null and leaves the heap, the old block and its contents
included, as it was. -/
theorem resize_fate_of_old_block (size old_size : Int) (old_memory allocator_data : Nat)
    (options : Int) (h : Heap) (hold : old_memory ≠ 0) (hsz : 0 < old_size) :
    ((malloc h (to_size_t size)).1 ≠ 0 →
      ∃ h1, default_allocator ALLOCATOR_RESIZE size old_size old_memory allocator_data options h =
          .returned (malloc h (to_size_t size)).1 h1 ∧
        h1.frees = old_memory :: h.frees ∧ ∀ b ∈ h1.blocks, b.1 ≠ old_memory) ∧
    ((malloc h (to_size_t size)).1 = 0 →
      default_allocator ALLOCATOR_RESIZE size old_size old_memory allocator_data options h =
        .returned 0 h) := by
  constructor
  · intro hr
    refine ⟨free (memcpy (malloc h (to_size_t size)).2 (malloc h (to_size_t size)).1 old_memory
      (to_size_t old_size)) old_memory, ?_, ?_, free_blocks _ _ hold⟩
    · simp [default_allocator, ALLOCATOR_ALLOCATE, ALLOCATOR_RESIZE, hr, hold, hsz]
    · rw [free_frees _ hold]
      simp [memcpy, malloc_frees]
  · intro hr
    simp [default_allocator, ALLOCATOR_ALLOCATE, ALLOCATOR_RESIZE, hr, malloc_fail h _ hr]

/-- The same on `heap_start`: growing the block at 1 from 8 to 16 bytes
succeeds, and asking for 100 bytes fails. -/
theorem resize_fate_of_old_block_example :
    ((1 : Nat) ≠ 0 ∧ (0 : Int) < 8) ∧
    ((malloc heap_start (to_size_t 16)).1 ≠ 0 ∧
      ∃ h1, default_allocator ALLOCATOR_RESIZE 16 8 1 0 0 heap_start =
          .returned (malloc heap_start (to_size_t 16)).1 h1 ∧
        h1.frees = 1 :: heap_start.frees ∧ ∀ b ∈ h1.blocks, b.1 ≠ 1) ∧
    ((malloc heap_start (to_size_t 100)).1 = 0 ∧
      default_allocator ALLOCATOR_RESIZE 100 8 1 0 0 heap_start = .returned 0 heap_start) :=
  ⟨by decide,
    ⟨by decide, (resize_fate_of_old_block 16 8 1 0 0 heap_start (by decide) (by decide)).1
      (by decide)⟩,
    ⟨by decide, (resize_fate_of_old_block 100 8 1 0 0 heap_start (by decide) (by decide)).2
      (by decide)⟩⟩

end Base

/-! ## The kernel model -/

namespace Win32

theorem lookup_null (os : OS) : os.lookup 0 = none := by
  simp [OS.lookup]

theorem trace_log (os : OS) (c : Call) : (os.log c).trace = c :: os.trace := rfl

theorem list_lookup_filter_ne (l : List (Nat × KObject)) (h : Nat) :
    (l.filter (fun e => e.1 != h)).lookup h = none := by
  induction l with
  | nil => rfl
  | cons e l ih =>
    by_cases he : e.1 = h
    · simp [List.filter, he, ih]
    · have hb : (e.1 != h) = true := by simpa using he
      have hb2 : (h == e.1) = false := by simpa using fun h1 => he h1.symm
      obtain ⟨k, o⟩ := e
      simp only [List.filter, hb, List.lookup, hb2]
      exact ih


theorem lookup_log (os : OS) (c : Call) (h : Nat) : (os.log c).lookup h = os.lookup h := rfl

theorem list_lookup_head (l : List (Nat × KObject)) (h : Nat) (v : KObject) :
    List.lookup h ((h, v) :: l) = some v := by
  simp [List.lookup]

theorem list_lookup_tail (l : List (Nat × KObject)) {h k : Nat} (v : KObject) (hk : k ≠ h) :
    List.lookup h ((k, v) :: l) = List.lookup h l := by
  have hb : (h == k) = false := by simpa using fun h1 => hk h1.symm
  simp only [List.lookup, hb]

theorem list_lookup_map_set (l : List (Nat × KObject)) (h : Nat) (o o1 : KObject)
    (hl : l.lookup h = some o) :
    (l.map (fun e => if e.1 = h then (e.1, o1) else e)).lookup h = some o1 := by
  induction l with
  | nil => simp [List.lookup] at hl
  | cons e l ih =>
    obtain ⟨k, v⟩ := e
    rw [List.map_cons]
    by_cases hk : k = h
    · subst hk
      rw [if_pos rfl]
      exact list_lookup_head _ _ _
    · rw [if_neg hk, list_lookup_tail _ _ hk]
      rw [list_lookup_tail _ _ hk] at hl
      exact ih hl

theorem lookup_set (os : OS) (h : Nat) (o o1 : KObject) (hl : os.lookup h = some o) :
    (os.set h o1).lookup h = some o1 := by
  unfold OS.lookup at *
  split at hl
  · cases hl
  · next hne =>
    simp only [if_neg hne, OS.set]
    exact list_lookup_map_set _ _ _ _ hl

/-- What passing time does to one entry of the handle table. -/
theorem advance_entry_fst (d : Nat) (e : Nat × KObject) :
    ((match e.2 with
      | .thread tid (some r) => (e.1, KObject.thread tid (some (r - d)))
      | _ => e) : Nat × KObject).1 = e.1 := by
  split <;> rfl

theorem list_lookup_map_advance (l : List (Nat × KObject)) (h d c m : Nat)
    (hl : l.lookup h = some (.semaphore c m)) :
    (l.map (fun e =>
      match e.2 with
      | .thread tid (some r) => (e.1, KObject.thread tid (some (r - d)))
      | _ => e)).lookup h = some (.semaphore c m) := by
  induction l with
  | nil => simp [List.lookup] at hl
  | cons e l ih =>
    obtain ⟨k, v⟩ := e
    rw [List.map_cons]
    by_cases hk : k = h
    · subst hk
      rw [list_lookup_head] at hl
      cases hl
      exact list_lookup_head _ _ _
    · rw [list_lookup_tail _ _ hk] at hl
      have hf := advance_entry_fst d (k, v)
      generalize (match (k, v).2 with
        | .thread tid (some r) => ((k, v).1, KObject.thread tid (some (r - d)))
        | _ => (k, v)) = x at hf ⊢
      obtain ⟨a, b⟩ := x
      simp only at hf
      subst hf
      rw [list_lookup_tail _ _ hk]
      exact ih hl

theorem lookup_advance (os : OS) (h d c m : Nat) (hl : os.lookup h = some (.semaphore c m)) :
    (os.advance d).lookup h = some (.semaphore c m) := by
  unfold OS.lookup at *
  split at hl
  · cases hl
  · next hne =>
    simp only [if_neg hne, OS.advance]
    exact list_lookup_map_advance _ _ _ _ _ hl

theorem lookup_ne_null {os : OS} {h : Nat} {o : KObject} (hl : os.lookup h = some o) : h ≠ 0 := by
  intro h0
  subst h0
  simp [OS.lookup] at hl


theorem CloseHandle_trace (os : OS) (h : Nat) :
    (CloseHandle os h).2.trace = .CloseHandle h :: os.trace := by
  unfold CloseHandle
  simp only [lookup_log]
  cases os.lookup h <;> rfl

theorem CloseHandle_lookup (os : OS) (h : Nat) : (CloseHandle os h).2.lookup h = none := by
  unfold CloseHandle
  simp only [lookup_log]
  cases hl : os.lookup h with
  | none => simpa [lookup_log] using hl
  | some o =>
    simp only [OS.lookup]
    split
    · rfl
    · exact list_lookup_filter_ne _ _

theorem GetExitCodeThread_state (os : OS) (h : Nat) :
    (GetExitCodeThread os h).2 = os.log (.GetExitCodeThread h) := by
  unfold GetExitCodeThread
  simp only [lookup_log]
  cases os.lookup h with
  | none => rfl
  | some o => cases o <;> rfl

end Win32

/-! ## thread.h -/

namespace ThreadLib

open Win32

theorem semaphore_wait_take (os : OS) (s : Semaphore) (c m w : Nat)
    (hl : os.lookup s.internal_data = some (.semaphore (c + 1) m)) :
    ∃ os1, semaphore_wait (some s) w os = some (true, os1) ∧
      os1.lookup s.internal_data = some (.semaphore c m) := by
  have hne := lookup_ne_null hl
  refine ⟨(os.log (.WaitForSingleObject s.internal_data (w % DWORD))).set s.internal_data
    (.semaphore c m), ?_, lookup_set _ _ _ _ (by rw [lookup_log]; exact hl)⟩
  simp [semaphore_wait, hne, WaitForSingleObject, lookup_log, hl, WAIT_OBJECT_0, WAIT_ABANDONED]

theorem semaphore_wait_empty (os : OS) (s : Semaphore) (m w : Nat)
    (hl : os.lookup s.internal_data = some (.semaphore 0 m)) (hw : w % DWORD ≠ INFINITE) :
    ∃ os1, semaphore_wait (some s) w os = some (false, os1) ∧
      os1.lookup s.internal_data = some (.semaphore 0 m) := by
  have hne := lookup_ne_null hl
  refine ⟨(os.log (.WaitForSingleObject s.internal_data (w % DWORD))).advance (w % DWORD), ?_,
    lookup_advance _ _ _ _ _ (by rw [lookup_log]; exact hl)⟩
  simp [semaphore_wait, hne, WaitForSingleObject, lookup_log, hl, hw, WAIT_OBJECT_0,
    WAIT_ABANDONED, WAIT_TIMEOUT]

theorem semaphore_wait_blocks (os : OS) (s : Semaphore) (m w : Nat)
    (hl : os.lookup s.internal_data = some (.semaphore 0 m)) (hw : w % DWORD = INFINITE) :
    semaphore_wait (some s) w os = none := by
  have hne := lookup_ne_null hl
  simp [semaphore_wait, hne, WaitForSingleObject, lookup_log, hl, hw]

theorem semaphore_signal_add (os : OS) (s : Semaphore) (c m : Nat)
    (hl : os.lookup s.internal_data = some (.semaphore c m)) (hc : c < m) :
    ∃ os1, semaphore_signal (some s) os = (true, os1) ∧
      os1.lookup s.internal_data = some (.semaphore (c + 1) m) := by
  have hne := lookup_ne_null hl
  refine ⟨(os.log (.ReleaseSemaphore s.internal_data 1)).set s.internal_data
    (.semaphore (c + 1) m), ?_, lookup_set _ _ _ _ (by rw [lookup_log]; exact hl)⟩
  have : (c : Int) + 1 ≤ m := by omega
  simp [semaphore_signal, hne, ReleaseSemaphore, lookup_log, hl, this]

theorem semaphore_signal_full (os : OS) (s : Semaphore) (c m : Nat)
    (hl : os.lookup s.internal_data = some (.semaphore c m)) (hc : m ≤ c) :
    semaphore_signal (some s) os = (false, os.log (.ReleaseSemaphore s.internal_data 1)) := by
  have hne := lookup_ne_null hl
  have : ¬ ((c : Int) + 1 ≤ m) := by omega
  simp [semaphore_signal, hne, ReleaseSemaphore, lookup_log, hl, this]

theorem semaphore_wait_times_drain (s : Semaphore) (m : Nat) :
    ∀ (c : Nat) (os : OS), os.lookup s.internal_data = some (.semaphore c m) →
      ∃ os2, semaphore_wait_times (some s) 0 c os = some (List.replicate c true, os2) ∧
        os2.lookup s.internal_data = some (.semaphore 0 m) := by
  intro c
  induction c with
  | zero => intro os hl; exact ⟨os, rfl, hl⟩
  | succ c ih =>
    intro os hl
    obtain ⟨os1, hw, hl1⟩ := semaphore_wait_take os s c m 0 hl
    obtain ⟨os2, hws, hl2⟩ := ih os1 hl1
    exact ⟨os2, by simp [semaphore_wait_times, hw, hws, List.replicate], hl2⟩

theorem semaphore_signal_times_fill (s : Semaphore) (m : Nat) :
    ∀ (k c : Nat) (os : OS), c + k ≤ m → os.lookup s.internal_data = some (.semaphore c m) →
      (semaphore_signal_times (some s) k os).1 = List.replicate k true ∧
      (semaphore_signal_times (some s) k os).2.lookup s.internal_data =
        some (.semaphore (c + k) m) := by
  intro k
  induction k with
  | zero => intro c os _ hl; exact ⟨rfl, hl⟩
  | succ k ih =>
    intro c os hck hl
    obtain ⟨os1, hs, hl1⟩ := semaphore_signal_add os s c m hl (by omega)
    obtain ⟨h1, h2⟩ := ih (c + 1) os1 (by omega) hl1
    simp only [semaphore_signal_times, hs, h1, List.replicate, true_and]
    rw [h2]
    congr 2
    omega

theorem semaphore_calls_bounded (s : Semaphore) (m : Nat) :
    ∀ (calls : List SemCall) (c : Nat) (os : OS), c ≤ m →
      os.lookup s.internal_data = some (.semaphore c m) →
      ∃ c1, c1 ≤ m ∧
        (semaphore_calls (some s) calls os).lookup s.internal_data = some (.semaphore c1 m) := by
  intro calls
  induction calls with
  | nil => intro c os hc hl; exact ⟨c, hc, hl⟩
  | cons call calls ih =>
    intro c os hc hl
    cases call with
    | signal =>
      simp only [semaphore_calls]
      rcases Nat.lt_or_ge c m with hlt | hge
      · obtain ⟨os1, hs, hl1⟩ := semaphore_signal_add os s c m hl hlt
        rw [hs]
        exact ih (c + 1) os1 hlt hl1
      · rw [semaphore_signal_full os s c m hl hge]
        exact ih c _ hc (by rw [lookup_log]; exact hl)
    | wait w =>
      simp only [semaphore_calls]
      cases c with
      | succ c =>
        obtain ⟨os1, hw, hl1⟩ := semaphore_wait_take os s c m w hl
        rw [hw]
        exact ih c os1 (by omega) hl1
      | zero =>
        by_cases hinf : w % DWORD = INFINITE
        · rw [semaphore_wait_blocks os s m w hl hinf]
          exact ⟨0, hc, hl⟩
        · obtain ⟨os1, hw, hl1⟩ := semaphore_wait_empty os s m w hl hinf
          rw [hw]
          exact ih 0 os1 hc hl1


theorem to_LONG_small {x : Nat} (hx : x < 2 ^ 31) : to_LONG x = (x : Int) := by
  have h1 : x % DWORD = x := Nat.mod_eq_of_lt (by unfold DWORD; omega)
  unfold to_LONG
  rw [h1, if_pos hx]

theorem semaphore_create_state (out : Semaphore) (max_count start_count : Nat) (os : OS)
    (hq : os.quota ≠ 0) (hmax : 0 < max_count) (h31 : max_count < 2 ^ 31)
    (hs : start_count ≤ max_count) :
    (semaphore_create out max_count start_count os).1 = true ∧
    (semaphore_create out max_count start_count os).2.1 = { internal_data := os.last_handle + 1 } ∧
    (semaphore_create out max_count start_count os).2.2.lookup (os.last_handle + 1) =
      some (.semaphore start_count max_count) := by
  have e1 := to_LONG_small h31
  have e2 := to_LONG_small (show start_count < 2 ^ 31 by omega)
  have hrej : ¬ ((max_count : Int) ≤ 0 ∨ (start_count : Int) < 0 ∨ (max_count : Int) < start_count) := by
    omega
  have hq1 : (os.log (.CreateSemaphore start_count max_count)).quota ≠ 0 := hq
  simp only [semaphore_create, CreateSemaphore, e1, e2, if_neg hrej, OS.open_new, if_neg hq1,
    Nat.succ_ne_zero, if_false, true_and, Int.toNat_ofNat]
  refine ⟨rfl, ?_⟩
  simp only [OS.lookup, Nat.succ_ne_zero, if_false]
  exact list_lookup_head _ _ _

/-! ### Thread handles -/

/-- C1: `thread_destroy` on a handle whose `internal_data` is non-null
leaves `thread_id = 0` and `internal_data = null`, calls `CloseHandle` on the
handle exactly once (after `GetExitCodeThread`), and the handle is then
closed; on a handle whose `internal_data` is null, and on a null pointer, it
changes neither the handle nor the state of the system; and destroying twice
leaves what destroying once leaves. -/
theorem thread_destroy_clears_once_and_is_idempotent (t : Thread) (os : OS) :
    (t.internal_data ≠ 0 →
      (thread_destroy (some t) os).1 = some { thread_id := 0, internal_data := 0 } ∧
      (thread_destroy (some t) os).2.trace =
        .CloseHandle t.internal_data :: .GetExitCodeThread t.internal_data :: os.trace ∧
      closes_of t.internal_data (thread_destroy (some t) os).2.trace =
        closes_of t.internal_data os.trace + 1 ∧
      (thread_destroy (some t) os).2.lookup t.internal_data = none) ∧
    (t.internal_data = 0 → thread_destroy (some t) os = (some t, os)) ∧
    thread_destroy none os = (none, os) ∧
    (∀ th : Option Thread,
      thread_destroy (thread_destroy th os).1 (thread_destroy th os).2 = thread_destroy th os) := by
  refine ⟨?_, ?_, rfl, ?_⟩
  · intro h
    simp only [thread_destroy, if_pos h, CloseHandle_trace, CloseHandle_lookup,
      GetExitCodeThread_state, trace_log, closes_of, true_and, and_true]
    simp
  · intro h
    simp [thread_destroy, h]
  · intro th
    cases th with
    | none => rfl
    | some u =>
      by_cases h : u.internal_data = 0
      · simp [thread_destroy, h]
      · simp [thread_destroy, h]

/-- C2: on `os_start`, `thread_create` with `should_detach = true` succeeds
and closes the new handle (value 1) once, yet leaves `internal_data = 1`,
which no longer names an open handle; `thread_create` with
`should_detach = false` followed by `thread_detach` leaves
`internal_data = null` instead; and a `thread_destroy` after the detached
creation calls `CloseHandle` on the same handle a second time. -/
theorem thread_create_detached_keeps_closed_handle :
    (thread_create ⟨0, 0⟩ proc_5ms 0 true os_start).1 = true ∧
    (thread_create ⟨0, 0⟩ proc_5ms 0 true os_start).2.1.internal_data = 1 ∧
    (thread_create ⟨0, 0⟩ proc_5ms 0 true os_start).2.2.lookup 1 = none ∧
    closes_of 1 (thread_create ⟨0, 0⟩ proc_5ms 0 true os_start).2.2.trace = 1 ∧
    (thread_detach (some (thread_create ⟨0, 0⟩ proc_5ms 0 false os_start).2.1)
      (thread_create ⟨0, 0⟩ proc_5ms 0 false os_start).2.2).1 =
        some { thread_id := 1, internal_data := 0 } ∧
    closes_of 1 (thread_destroy (some (thread_create ⟨0, 0⟩ proc_5ms 0 true os_start).2.1)
      (thread_create ⟨0, 0⟩ proc_5ms 0 true os_start).2.2).2.trace = 2 := by
  decide

theorem thread_create_detached_eq (out : Thread) (proc : Nat → Option Nat) (params : Nat)
    (os : OS) (hq : os.quota ≠ 0) :
    thread_create out (some proc) params true os =
      (true, { thread_id := store_low_dword out.thread_id ((os.last_tid + 1) % DWORD),
               internal_data := os.last_handle + 1 },
        (CloseHandle
          { table := (os.last_handle + 1, .thread (os.last_tid + 1) (proc params)) :: os.table,
            last_handle := os.last_handle + 1, last_tid := os.last_tid + 1,
            quota := os.quota - 1, self := os.self,
            trace := .CreateThread params :: os.trace }
          (os.last_handle + 1)).2) := by
  simp [thread_create, CreateThread, OS.open_new, hq, OS.log]

/-- The same in every state with a handle to spare: the detached creation
succeeds, leaves a non-null `internal_data` that names no open handle, and a
later `thread_destroy` brings the `CloseHandle` calls on it to two more than
before the creation. -/
theorem thread_create_detached_general (out : Thread) (proc : Nat → Option Nat) (params : Nat)
    (os : OS) (hq : os.quota ≠ 0) :
    (thread_create out (some proc) params true os).1 = true ∧
    (thread_create out (some proc) params true os).2.1.internal_data = os.last_handle + 1 ∧
    (thread_create out (some proc) params true os).2.2.lookup (os.last_handle + 1) = none ∧
    closes_of (os.last_handle + 1)
      (thread_destroy (some (thread_create out (some proc) params true os).2.1)
        (thread_create out (some proc) params true os).2.2).2.trace =
      closes_of (os.last_handle + 1) os.trace + 2 := by
  rw [thread_create_detached_eq out proc params os hq]
  refine ⟨rfl, rfl, CloseHandle_lookup _ _, ?_⟩
  simp only [thread_destroy, Nat.succ_ne_zero, ne_eq, not_false_eq_true, if_true,
    CloseHandle_trace, GetExitCodeThread_state, trace_log, closes_of]
  simp

/-! ### Cleared handles -/

/-- C3: `mutex_lock` on a mutex whose `internal_data` is null calls
`WaitForSingleObject(null, INFINITE)` and returns true, in every state of the
system. -/
theorem mutex_lock_cleared_handle_reports_success (os : OS) :
    mutex_lock { internal_data := 0 } os =
      some (true, os.log (.WaitForSingleObject 0 INFINITE)) := by
  simp [mutex_lock, WaitForSingleObject, lookup_log, lookup_null, WAIT_FAILED, WAIT_OBJECT_0,
    WAIT_ABANDONED]

/-- Every other operation on a cleared handle makes no call: the boolean
ones return false, the void ones leave the handle as it is. -/
theorem cleared_handle_other_operations (os : OS) (id wait_ms : Nat) :
    thread_is_active (some ⟨id, 0⟩) os = some (false, os) ∧
    thread_wait (some ⟨id, 0⟩) os = some (false, os) ∧
    thread_wait_timeout (some ⟨id, 0⟩) wait_ms os = some (false, os) ∧
    mutex_unlock (some ⟨0⟩) os = (false, os) ∧
    semaphore_signal (some ⟨0⟩) os = (false, os) ∧
    semaphore_wait (some ⟨0⟩) wait_ms os = some (false, os) ∧
    thread_destroy (some ⟨id, 0⟩) os = (some ⟨id, 0⟩, os) ∧
    thread_detach (some ⟨id, 0⟩) os = (some ⟨id, 0⟩, os) ∧
    thread_cancel (some ⟨id, 0⟩) os = (some ⟨id, 0⟩, os) ∧
    mutex_destroy (some ⟨0⟩) os = (some ⟨0⟩, os) ∧
    semaphore_destroy (some ⟨0⟩) os = (some ⟨0⟩, os) := by
  simp [thread_is_active, thread_wait, thread_wait_timeout, mutex_unlock, semaphore_signal,
    semaphore_wait, thread_destroy, thread_detach, thread_cancel, mutex_destroy,
    semaphore_destroy]

/-! ### Timeouts -/

theorem trace_set (os : OS) (h : Nat) (o : KObject) : (os.set h o).trace = os.trace := rfl

theorem trace_advance (os : OS) (d : Nat) : (os.advance d).trace = os.trace := rfl

theorem WaitForSingleObject_trace (os os1 : OS) (h ms c : Nat)
    (hw : WaitForSingleObject os h ms = some (c, os1)) :
    os1.trace = .WaitForSingleObject h ms :: os.trace := by
  unfold WaitForSingleObject at hw
  simp only [lookup_log] at hw
  cases hlk : os.lookup h with
  | none =>
    simp only [hlk, Option.some.injEq, Prod.mk.injEq] at hw
    rw [← hw.2]; rfl
  | some o =>
    cases o with
    | thread tid e =>
      cases e with
      | none =>
        simp only [hlk] at hw
        split_ifs at hw
        simp only [Option.some.injEq, Prod.mk.injEq] at hw
        rw [← hw.2]; rfl
      | some d =>
        simp only [hlk] at hw
        split_ifs at hw <;> simp only [Option.some.injEq, Prod.mk.injEq] at hw <;>
          (rw [← hw.2]; rfl)
    | semaphore cnt m =>
      simp only [hlk] at hw
      split_ifs at hw <;> simp only [Option.some.injEq, Prod.mk.injEq] at hw <;>
        (rw [← hw.2]; rfl)
    | mutex owner depth ab =>
      cases owner with
      | none =>
        simp only [hlk] at hw
        split_ifs at hw <;> simp only [Option.some.injEq, Prod.mk.injEq] at hw <;>
          (rw [← hw.2]; rfl)
      | some o =>
        simp only [hlk] at hw
        split_ifs at hw <;> simp only [Option.some.injEq, Prod.mk.injEq] at hw <;>
          (rw [← hw.2]; rfl)

theorem thread_wait_timeout_live (th : Thread) (w : Nat) (os : OS) (hl : th.internal_data ≠ 0) :
    thread_wait_timeout (some th) w os =
      (WaitForSingleObject os th.internal_data (w % 2 ^ 32)).map
        (fun r => (r.1 == WAIT_OBJECT_0, r.2)) := by
  simp only [thread_wait_timeout, hl, ne_eq, not_false_eq_true, if_true, DWORD]
  cases WaitForSingleObject os th.internal_data (w % 2 ^ 32) with
  | none => rfl
  | some r =>
    obtain ⟨c, os1⟩ := r
    by_cases hc : c = WAIT_OBJECT_0 <;> simp [hc]

theorem thread_wait_live (th : Thread) (os : OS) (hl : th.internal_data ≠ 0) :
    thread_wait (some th) os =
      (WaitForSingleObject os th.internal_data INFINITE).map
        (fun r => (r.1 == WAIT_OBJECT_0, r.2)) := by
  simp only [thread_wait, hl, ne_eq, not_false_eq_true, if_true]
  cases WaitForSingleObject os th.internal_data INFINITE with
  | none => rfl
  | some r => rfl

theorem semaphore_wait_live (s : Semaphore) (w : Nat) (os : OS) (hl : s.internal_data ≠ 0) :
    semaphore_wait (some s) w os =
      (WaitForSingleObject os s.internal_data (w % 2 ^ 32)).map
        (fun r => (r.1 == WAIT_OBJECT_0, r.2)) := by
  simp only [semaphore_wait, hl, if_false, DWORD]
  cases WaitForSingleObject os s.internal_data (w % 2 ^ 32) with
  | none => rfl
  | some r =>
    obtain ⟨c, os1⟩ := r
    by_cases hc : c = WAIT_OBJECT_0
    · subst hc; simp [WAIT_OBJECT_0, WAIT_ABANDONED]
    · by_cases ha : c = WAIT_ABANDONED
      · subst ha; simp [WAIT_OBJECT_0, WAIT_ABANDONED]
      · simp [hc, ha]

/-- C9: `thread_wait_timeout` and `semaphore_wait` on a live handle make
the one call `WaitForSingleObject(handle, wait_ms mod 2 ^ 32)` and return
true exactly when it answers `WAIT_OBJECT_0`; so they depend on `wait_ms`
only through `wait_ms mod 2 ^ 32`: the results for `t` and for
`t + k * 2 ^ 32` are the same, `2 ^ 32` behaves as 0, and for every `t`
congruent to `2 ^ 32 - 1`, the largest `u64` among them, the wait is the
`INFINITE` one and `thread_wait_timeout` is `thread_wait`. -/
theorem wait_timeouts_truncate_to_32_bits (thread : Option Thread)
    (semaphore : Option Semaphore) (os : OS) (t k : Nat) :
    thread_wait_timeout thread t os = thread_wait_timeout thread (t % 2 ^ 32) os ∧
    semaphore_wait semaphore t os = semaphore_wait semaphore (t % 2 ^ 32) os ∧
    thread_wait_timeout thread (t + k * 2 ^ 32) os = thread_wait_timeout thread t os ∧
    semaphore_wait semaphore (t + k * 2 ^ 32) os = semaphore_wait semaphore t os ∧
    thread_wait_timeout thread (2 ^ 32) os = thread_wait_timeout thread 0 os ∧
    semaphore_wait semaphore (2 ^ 32) os = semaphore_wait semaphore 0 os ∧
    (t % 2 ^ 32 = 2 ^ 32 - 1 → thread_wait_timeout thread t os = thread_wait thread os) ∧
    thread_wait_timeout thread (2 ^ 64 - 1) os = thread_wait thread os ∧
    (∀ th : Thread, th.internal_data ≠ 0 →
      thread_wait_timeout (some th) t os =
        (WaitForSingleObject os th.internal_data (t % 2 ^ 32)).map
          (fun r => (r.1 == WAIT_OBJECT_0, r.2))) ∧
    (∀ s : Semaphore, s.internal_data ≠ 0 →
      semaphore_wait (some s) t os =
        (WaitForSingleObject os s.internal_data (t % 2 ^ 32)).map
          (fun r => (r.1 == WAIT_OBJECT_0, r.2))) ∧
    (∀ (th : Thread) (b : Bool) (os1 : OS), th.internal_data ≠ 0 →
      thread_wait_timeout (some th) t os = some (b, os1) →
      os1.trace = .WaitForSingleObject th.internal_data (t % 2 ^ 32) :: os.trace) ∧
    (∀ (s : Semaphore) (b : Bool) (os1 : OS), s.internal_data ≠ 0 →
      semaphore_wait (some s) t os = some (b, os1) →
      os1.trace = .WaitForSingleObject s.internal_data (t % 2 ^ 32) :: os.trace) ∧
    (∀ th : Thread, th.internal_data ≠ 0 →
      thread_wait (some th) os =
        (WaitForSingleObject os th.internal_data INFINITE).map
          (fun r => (r.1 == WAIT_OBJECT_0, r.2))) ∧
    (t % 2 ^ 32 = 2 ^ 32 - 1 → ∀ s : Semaphore, s.internal_data ≠ 0 →
      semaphore_wait (some s) t os =
        (WaitForSingleObject os s.internal_data INFINITE).map
          (fun r => (r.1 == WAIT_OBJECT_0, r.2))) ∧
    (∀ s : Semaphore, s.internal_data ≠ 0 →
      semaphore_wait (some s) (2 ^ 64 - 1) os =
        (WaitForSingleObject os s.internal_data INFINITE).map
          (fun r => (r.1 == WAIT_OBJECT_0, r.2))) := by
  have key : ∀ w, w % 2 ^ 32 = 2 ^ 32 - 1 →
      thread_wait_timeout thread w os = thread_wait thread os := by
    intro w hw
    cases thread with
    | none => rfl
    | some th =>
      unfold thread_wait_timeout thread_wait
      simp only [DWORD, hw, INFINITE]
      split
      · cases WaitForSingleObject os th.internal_data (2 ^ 32 - 1) with
        | none => rfl
        | some r =>
          obtain ⟨c, os1⟩ := r
          by_cases hc : c = WAIT_OBJECT_0 <;> simp [hc]
      · rfl
  have keys : ∀ w, w % 2 ^ 32 = 2 ^ 32 - 1 → ∀ s : Semaphore, s.internal_data ≠ 0 →
      semaphore_wait (some s) w os =
        (WaitForSingleObject os s.internal_data INFINITE).map
          (fun r => (r.1 == WAIT_OBJECT_0, r.2)) := by
    intro w hw s hs
    rw [semaphore_wait_live s w os hs, hw]
    rfl
  refine ⟨?_, ?_, ?_, ?_, ?_, ?_, key t, key _ (by norm_num),
    fun th hl => thread_wait_timeout_live th t os hl,
    fun s hl => semaphore_wait_live s t os hl, ?_, ?_,
    fun th hl => thread_wait_live th os hl, keys t, keys _ (by norm_num)⟩
  · cases thread <;> simp [thread_wait_timeout, DWORD]
  · cases semaphore <;> simp [semaphore_wait, DWORD]
  · cases thread <;> simp [thread_wait_timeout, DWORD]
  · cases semaphore <;> simp [semaphore_wait, DWORD]
  · cases thread <;> simp [thread_wait_timeout, DWORD]
  · cases semaphore <;> simp [semaphore_wait, DWORD]
  · intro th b os1 hl hr
    rw [thread_wait_timeout_live th t os hl] at hr
    cases hw : WaitForSingleObject os th.internal_data (t % 2 ^ 32) with
    | none => rw [hw] at hr; cases hr
    | some r =>
      obtain ⟨c, os2⟩ := r
      rw [hw] at hr
      simp only [Option.map_some', Option.some.injEq, Prod.mk.injEq] at hr
      rw [← hr.2]
      exact WaitForSingleObject_trace os os2 _ _ c hw
  · intro s b os1 hl hr
    rw [semaphore_wait_live s t os hl] at hr
    cases hw : WaitForSingleObject os s.internal_data (t % 2 ^ 32) with
    | none => rw [hw] at hr; cases hr
    | some r =>
      obtain ⟨c, os2⟩ := r
      rw [hw] at hr
      simp only [Option.map_some', Option.some.injEq, Prod.mk.injEq] at hr
      rw [← hr.2]
      exact WaitForSingleObject_trace os os2 _ _ c hw

/-- The truncation can be observed: a thread that exits in 5 ms is joined by
a wait of 5 ms and by one of `2 ^ 32 + 5` ms, but not by one of
`2 ^ 32 + 1` ms, which the system sees as 1 ms; a wait of 10 ms on a
semaphore with a permit returns true; and a wait of `2 ^ 32` ms on a
semaphore without permits returns false at once, as a wait of 0 ms does,
while a wait of `2 ^ 32 - 1` ms never returns. -/
theorem truncation_is_observable :
    (thread_wait_timeout (some (thread_create ⟨0, 0⟩ proc_5ms 0 false os_start).2.1) 5
      (thread_create ⟨0, 0⟩ proc_5ms 0 false os_start).2.2).map Prod.fst = some true ∧
    (thread_wait_timeout (some (thread_create ⟨0, 0⟩ proc_5ms 0 false os_start).2.1)
      (2 ^ 32 + 5) (thread_create ⟨0, 0⟩ proc_5ms 0 false os_start).2.2).map Prod.fst =
        some true ∧
    (thread_wait_timeout (some (thread_create ⟨0, 0⟩ proc_5ms 0 false os_start).2.1)
      (2 ^ 32 + 1) (thread_create ⟨0, 0⟩ proc_5ms 0 false os_start).2.2).map Prod.fst =
        some false ∧
    (semaphore_wait (some (semaphore_create ⟨0⟩ 3 1 os_start).2.1) 10
      (semaphore_create ⟨0⟩ 3 1 os_start).2.2).map Prod.fst = some true ∧
    (semaphore_wait (some (semaphore_create ⟨0⟩ 3 0 os_start).2.1) (2 ^ 32)
      (semaphore_create ⟨0⟩ 3 0 os_start).2.2).map Prod.fst = some false ∧
    (semaphore_wait (some (semaphore_create ⟨0⟩ 3 0 os_start).2.1) (2 ^ 32 - 1)
      (semaphore_create ⟨0⟩ 3 0 os_start).2.2) = none := by
  decide

/-! ### Semaphores -/

/-- C5, as stated, fails: with handles to spare, `semaphore_create` returns
false for `max_count = 0`, `start_count = 0`, and for `max_count = 2 ^ 31`,
which is negative as a `LONG`; and it returns false for `max_count = 1`,
`start_count = 1` when the process may open no further handle. -/
theorem semaphore_create_rejects_zero_max :
    os_start.quota = 8 ∧
    (semaphore_create ⟨0⟩ 0 0 os_start).1 = false ∧
    (semaphore_create ⟨0⟩ (2 ^ 31) 1 os_start).1 = false ∧
    (semaphore_create ⟨0⟩ 1 1 os_exhausted).1 = false := by
  decide

/-- C5, amended: when the process can open one more handle and
`1 ≤ max_count < 2 ^ 31`, `start_count ≤ max_count`, `semaphore_create`
succeeds, the next `start_count` calls `semaphore_wait` with timeout 0 all
return true, and the call after them returns false. -/
theorem semaphore_initial_permits (out : Semaphore) (max_count start_count : Nat) (os : OS)
    (hq : os.quota ≠ 0) (hmax : 0 < max_count) (h31 : max_count < 2 ^ 31)
    (hs : start_count ≤ max_count) :
    (semaphore_create out max_count start_count os).1 = true ∧
    ∃ os2 os3,
      semaphore_wait_times (some (semaphore_create out max_count start_count os).2.1) 0
        start_count (semaphore_create out max_count start_count os).2.2 =
          some (List.replicate start_count true, os2) ∧
      semaphore_wait (some (semaphore_create out max_count start_count os).2.1) 0 os2 =
        some (false, os3) := by
  obtain ⟨h1, h2, h3⟩ := semaphore_create_state out max_count start_count os hq hmax h31 hs
  refine ⟨h1, ?_⟩
  rw [h2]
  obtain ⟨os2, hd, hl2⟩ :=
    semaphore_wait_times_drain ⟨os.last_handle + 1⟩ max_count start_count _ h3
  obtain ⟨os3, hw, _⟩ := semaphore_wait_empty os2 ⟨os.last_handle + 1⟩ max_count 0 hl2 (by decide)
  exact ⟨os2, os3, hd, hw⟩

/-- The amended C5 on `os_start` with `max_count = 3`, `start_count = 2`. -/
theorem semaphore_initial_permits_witness :
    (os_start.quota ≠ 0 ∧ 0 < 3 ∧ 3 < 2 ^ 31 ∧ 2 ≤ 3) ∧
    (semaphore_create ⟨0⟩ 3 2 os_start).1 = true ∧
    ∃ os2 os3,
      semaphore_wait_times (some (semaphore_create ⟨0⟩ 3 2 os_start).2.1) 0
        2 (semaphore_create ⟨0⟩ 3 2 os_start).2.2 =
          some (List.replicate 2 true, os2) ∧
      semaphore_wait (some (semaphore_create ⟨0⟩ 3 2 os_start).2.1) 0 os2 =
        some (false, os3) :=
  ⟨by decide,
    semaphore_initial_permits ⟨0⟩ 3 2 os_start (by decide) (by decide) (by decide) (by decide)⟩

/-- C6: on a semaphore with maximum `m` whose count is 0, `m` consecutive
calls `semaphore_signal` all return true and bring the count to `m`; one
more call returns false and leaves the count at `m`; and after every
sequence of `semaphore_signal` and `semaphore_wait` calls the count is at
most `m`. -/
theorem semaphore_signal_refuses_beyond_max (s : Semaphore) (m : Nat) (os : OS)
    (hl : os.lookup s.internal_data = some (.semaphore 0 m)) :
    (semaphore_signal_times (some s) m os).1 = List.replicate m true ∧
    (semaphore_signal_times (some s) m os).2.lookup s.internal_data = some (.semaphore m m) ∧
    (semaphore_signal (some s) (semaphore_signal_times (some s) m os).2).1 = false ∧
    (semaphore_signal (some s) (semaphore_signal_times (some s) m os).2).2.lookup
      s.internal_data = some (.semaphore m m) ∧
    ∀ calls : List SemCall, ∃ c, c ≤ m ∧
      (semaphore_calls (some s) calls os).lookup s.internal_data = some (.semaphore c m) := by
  obtain ⟨h1, h2⟩ := semaphore_signal_times_fill s m m 0 os (by omega) hl
  rw [Nat.zero_add] at h2
  have h3 := semaphore_signal_full _ s m m h2 (Nat.le_refl m)
  refine ⟨h1, h2, ?_, ?_, fun calls => semaphore_calls_bounded s m calls 0 os (Nat.zero_le m) hl⟩
  · rw [h3]
  · rw [h3, lookup_log]
    exact h2

/-- C6 on the semaphore that `semaphore_create` makes on `os_start` for
`max_count = 3`, `start_count = 0`: its handle is 1 and its count is 0. -/
theorem semaphore_signal_refuses_beyond_max_witness :
    (semaphore_create ⟨0⟩ 3 0 os_start).1 = true ∧
    (semaphore_create ⟨0⟩ 3 0 os_start).2.2.lookup
      (semaphore_create ⟨0⟩ 3 0 os_start).2.1.internal_data = some (.semaphore 0 3) ∧
    (semaphore_signal_times (some (semaphore_create ⟨0⟩ 3 0 os_start).2.1) 3
      (semaphore_create ⟨0⟩ 3 0 os_start).2.2).1 = List.replicate 3 true ∧
    (semaphore_signal (some (semaphore_create ⟨0⟩ 3 0 os_start).2.1)
      (semaphore_signal_times (some (semaphore_create ⟨0⟩ 3 0 os_start).2.1) 3
        (semaphore_create ⟨0⟩ 3 0 os_start).2.2).2).1 = false :=
  ⟨by decide, by decide,
    (semaphore_signal_refuses_beyond_max (semaphore_create ⟨0⟩ 3 0 os_start).2.1 3
      (semaphore_create ⟨0⟩ 3 0 os_start).2.2 (by decide)).1,
    (semaphore_signal_refuses_beyond_max (semaphore_create ⟨0⟩ 3 0 os_start).2.1 3
      (semaphore_create ⟨0⟩ 3 0 os_start).2.2 (by decide)).2.2.1⟩

end ThreadLib
